import Mathlib

/-!
# Smart FIR Generator — verification of the core rules layer

Shallow embedding of the core logic of the Smart-FIR-Generator Django/Flask
application, translated from `fir_backend/home/views.py`,
`fir_backend/home/models.py` and `fir_backend/home/app.py`:

* the FIR status workflow (`validate_status_change`),
* the access-control predicate (`can_access_fir`),
* the notification fan-out (`send_fir_notification`),
* the status-update branch of `officer_fir_detail_view`,
* the legal-suggestion generation view (`generate_legal_suggestions_view`),
* the evidence-type auto-classification in `Evidence.save`,
* the text prediction pipeline (`predict_from_text` in `app.py`),
* the charge-sheet gate (`generate_charge_sheet`).

Django model instances are compared by primary key, so users are identified
by their `pk : Nat` throughout; database tables are embedded as lists of
records, and the Python `set` of notification recipients as a duplicate-free
list built by insertion (its insertion order standing in for Python's
unspecified set iteration order).
-/

/-! ## Data model (`models.py`) -/

/-- A user record: `User` in `models.py` (`role` is `'admin'` or
`'police_officer'`, `station` an optional station pk). -/
structure User where
  pk : Nat
  username : String
  role : String
  station : Option Nat
deriving DecidableEq, Repr

/-- An FIR record: the fields of `FIR` in `models.py` that the core rules
read.  `police_officer` is the owning officer's pk, `assigned_team` the pks
of the ManyToMany team members. -/
structure FIRrec where
  pk : Nat
  fir_number : String
  status : String
  police_officer : Nat
  assigned_team : List Nat
  station : Nat
deriving DecidableEq, Repr

/-- A notification record (`Notification` in `models.py`): the fields
written by `Notification.objects.create` in `send_fir_notification`. -/
structure Notification where
  user : Nat
  message : String
  link : String
deriving DecidableEq, Repr

/-- A legal-suggestion record (`LegalSuggestion` in `models.py`). -/
structure Suggestion where
  fir : Nat
  ipc_section : String
  crpc_section : Option String
  act_name : String
  description : Option String
  confidence_score : ℚ
deriving DecidableEq, Repr

/-- An evidence record (`Evidence` in `models.py`), reduced to the fields
the claims read. -/
structure EvidenceRec where
  fir : Nat
  file : String
  evidence_type : String
  uploaded_by : Nat
deriving DecidableEq, Repr

/-- The relational store: one list per table that the verified operations
touch.  Witness and hearing rows are opaque here (no claim reads their
fields), kept only so frame conditions ("no other table is modified") can
be stated. -/
structure DB where
  firs : List FIRrec
  suggestions : List Suggestion
  notifications : List Notification
  evidence : List EvidenceRec
  witnesses : List Nat
  hearings : List Nat
deriving DecidableEq, Repr

/-- The five FIR statuses, the keys of `FIR.STATUS_CHOICES`. -/
inductive Status where
  | draft
  | submitted
  | under_investigation
  | closed
  | rejected
deriving DecidableEq, Fintype, Repr

/-- The string key a `Status` is stored as (first component of each
`FIR.STATUS_CHOICES` pair). -/
def Status.key : Status → String
  | .draft => "draft"
  | .submitted => "submitted"
  | .under_investigation => "under_investigation"
  | .closed => "closed"
  | .rejected => "rejected"

/-- The keys of `dict(FIR.STATUS_CHOICES)`. -/
def STATUS_KEYS : List String :=
  ["draft", "submitted", "under_investigation", "closed", "rejected"]

/-! ## Status workflow (`views.py`, `validate_status_change`) -/

/-- The `workflow` dict literal inside `validate_status_change`. -/
def workflow : List (String × List String) :=
  [("draft", ["submitted"]),
   ("submitted", ["under_investigation", "rejected"]),
   ("under_investigation", ["closed", "rejected"]),
   ("rejected", ["submitted"]),
   ("closed", [])]

/-- `validate_status_change(old_status, new_status)`:
`new_status in workflow.get(old_status, [])`. -/
def validate_status_change (old_status new_status : String) : Bool :=
  ((workflow.lookup old_status).getD []).contains new_status

/-- The workflow graph exactly as the spec lists it (spec-side definition,
for the refinement statement of claim C1). -/
def workflow_edges : List (Status × Status) :=
  [(.draft, .submitted),
   (.submitted, .under_investigation), (.submitted, .rejected),
   (.under_investigation, .closed), (.under_investigation, .rejected),
   (.rejected, .submitted)]

/-- C1: `validate_status_change` returns true iff the (current, requested)
pair is an edge of the workflow graph; in particular it returns false for
every request out of `closed` and for every self-transition. -/
theorem validate_status_change_iff_workflow_edge :
    (∀ s t : Status,
      validate_status_change s.key t.key = true ↔ (s, t) ∈ workflow_edges)
    ∧ (∀ t : Status, validate_status_change Status.closed.key t.key = false)
    ∧ (∀ s : Status, validate_status_change s.key s.key = false) := by
  decide

/-! ## Access control (`views.py`, `can_access_fir`) -/

/-- `is_admin(user)`. -/
def is_admin (user : User) : Bool :=
  user.role == "admin"

/-- `is_police_officer(user)`. -/
def is_police_officer (user : User) : Bool :=
  user.role == "police_officer"

/-- `can_access_fir(user, fir)`: Django compares model instances by pk, so
`fir.police_officer == user` is pk equality and
`fir.assigned_team.filter(pk=user.pk).exists()` is pk membership in the
team.  The embedding is a pure function: the source reads state and writes
nothing. -/
def can_access_fir (user : User) (fir : FIRrec) : Bool :=
  if is_admin user then true
  else if is_police_officer user then
    fir.police_officer == user.pk || fir.assigned_team.contains user.pk
  else false

/-- C3: admins always pass; a police officer passes iff owner or team
member; every other role fails; the result never depends on either party's
station (so sharing the FIR's station is neither necessary nor
sufficient). -/
theorem can_access_fir_spec :
    ∀ (u : User) (f : FIRrec),
      (u.role = "admin" → can_access_fir u f = true)
      ∧ (u.role = "police_officer" →
          (can_access_fir u f = true ↔
            (f.police_officer = u.pk ∨ u.pk ∈ f.assigned_team)))
      ∧ (u.role ≠ "admin" → u.role ≠ "police_officer" →
          can_access_fir u f = false)
      ∧ (∀ st st', can_access_fir ⟨u.pk, u.username, u.role, st⟩
            { f with station := st' } = can_access_fir u f) := by
  intro u f
  refine ⟨?_, ?_, ?_, ?_⟩
  · intro h
    simp [can_access_fir, is_admin, h]
  · intro h
    have hadm : ¬ (u.role = "admin") := by
      rw [h]; decide
    simp [can_access_fir, is_admin, is_police_officer, h, hadm,
      List.contains, List.elem_eq_mem]
  · intro h1 h2
    simp [can_access_fir, is_admin, is_police_officer, h1, h2]
  · intro st st'
    simp [can_access_fir, is_admin, is_police_officer]

/-- Witness for C3: each branch discharged at a concrete user/FIR. -/
theorem can_access_fir_spec_witness :
    (can_access_fir ⟨1, "root", "admin", none⟩ ⟨10, "FIR-1", "draft", 2, [3], 5⟩
        = true)
    ∧ (can_access_fir ⟨3, "tm", "police_officer", some 8⟩
          ⟨10, "FIR-1", "draft", 2, [3], 5⟩ = true
        ↔ ((2 : Nat) = 3 ∨ (3 : Nat) ∈ [(3 : Nat)]))
    ∧ (can_access_fir ⟨4, "guest", "clerk", some 5⟩
          ⟨10, "FIR-1", "draft", 2, [3], 5⟩ = false) :=
  ⟨(can_access_fir_spec ⟨1, "root", "admin", none⟩
      ⟨10, "FIR-1", "draft", 2, [3], 5⟩).1 rfl,
   (can_access_fir_spec ⟨3, "tm", "police_officer", some 8⟩
      ⟨10, "FIR-1", "draft", 2, [3], 5⟩).2.1 rfl,
   (can_access_fir_spec ⟨4, "guest", "clerk", some 5⟩
      ⟨10, "FIR-1", "draft", 2, [3], 5⟩).2.2.1 (by decide) (by decide)⟩

/-! ## Notifier (`views.py`, `send_fir_notification`) -/

/-- The action labels for which `send_fir_notification` also notifies all
admins: `['rejected', 'status_change', 'overdue']`. -/
def admin_actions : List String :=
  ["rejected", "status_change", "overdue"]

/-- The pks of `User.objects.filter(role='admin')` in a user table. -/
def admin_pks (users : List User) : List Nat :=
  (users.filter (fun u => u.role == "admin")).map User.pk

/-- One `set.add`: appends the element unless it is already present
(Python set semantics; insertion order stands in for the unspecified set
iteration order). -/
def set_insert (s : List Nat) (x : Nat) : List Nat :=
  if x ∈ s then s else s ++ [x]

/-- The `recipients` set built by `send_fir_notification`: the owning
officer if not the actor, each team member other than the actor, and —
for the actions in `admin_actions` — every admin user, with no actor
exclusion on that last update. -/
def fir_recipients (users : List User) (fir : FIRrec) (action : String)
    (actor : User) : List Nat :=
  let base : List Nat :=
    if fir.police_officer ≠ actor.pk then [fir.police_officer] else []
  let withTeam :=
    (fir.assigned_team.filter (fun m => m ≠ actor.pk)).foldl set_insert base
  if action ∈ admin_actions then (admin_pks users).foldl set_insert withTeam
  else withTeam

/-- The notification row `Notification.objects.create` writes for one
recipient of `send_fir_notification`. -/
def fir_notification (fir : FIRrec) (action : String) (actor : User)
    (recipient : Nat) : Notification :=
  ⟨recipient,
   "FIR " ++ fir.fir_number ++ ": " ++ (action.replace "_" " ")
     ++ " by " ++ actor.username,
   "/firs/" ++ toString fir.pk ++ "/"⟩

/-- `send_fir_notification(fir, action, actor)` acting on the notification
table: one `Notification.objects.create` per member of the recipient
set. -/
def send_fir_notification (users : List User) (fir : FIRrec)
    (action : String) (actor : User) (table : List Notification) :
    List Notification :=
  table ++ (fir_recipients users fir action actor).map
    (fir_notification fir action actor)

theorem mem_set_insert (s : List Nat) (a x : Nat) :
    x ∈ set_insert s a ↔ x ∈ s ∨ x = a := by
  by_cases h : a ∈ s
  · simp only [set_insert, if_pos h]
    constructor
    · exact Or.inl
    · rintro (hx | rfl)
      · exact hx
      · exact h
  · simp [set_insert, if_neg h]

theorem mem_foldl_set_insert (l : List Nat) (s : List Nat) (x : Nat) :
    x ∈ l.foldl set_insert s ↔ x ∈ s ∨ x ∈ l := by
  induction l generalizing s with
  | nil => simp
  | cons a t ih =>
    rw [List.foldl_cons, ih, mem_set_insert]
    simp
    tauto

theorem nodup_set_insert (s : List Nat) (a : Nat) (h : s.Nodup) :
    (set_insert s a).Nodup := by
  by_cases ha : a ∈ s
  · simpa [set_insert, if_pos ha] using h
  · simp [set_insert, if_neg ha, List.nodup_append, h, ha]

theorem nodup_foldl_set_insert (l : List Nat) (s : List Nat)
    (h : s.Nodup) : (l.foldl set_insert s).Nodup := by
  induction l generalizing s with
  | nil => exact h
  | cons a t ih => exact ih _ (nodup_set_insert _ _ h)

/-- Membership in the recipient set, as a plain formula. -/
theorem mem_fir_recipients (users : List User) (fir : FIRrec)
    (action : String) (actor : User) (x : Nat) :
    x ∈ fir_recipients users fir action actor ↔
      ((x = fir.police_officer ∨ x ∈ fir.assigned_team) ∧ x ≠ actor.pk)
      ∨ (action ∈ admin_actions ∧ x ∈ admin_pks users) := by
  by_cases ha : action ∈ admin_actions <;>
    by_cases hpo : fir.police_officer = actor.pk <;>
      by_cases hx : x = actor.pk <;>
        simp [fir_recipients, ha, hpo, hx, mem_foldl_set_insert,
          List.mem_filter] <;>
        tauto

theorem nodup_fir_recipients (users : List User) (fir : FIRrec)
    (action : String) (actor : User) :
    (fir_recipients users fir action actor).Nodup := by
  have hbase :
      (if fir.police_officer ≠ actor.pk then [fir.police_officer]
        else ([] : List Nat)).Nodup := by
    by_cases hpo : fir.police_officer ≠ actor.pk <;> simp [hpo]
  by_cases ha : action ∈ admin_actions <;>
    simp only [fir_recipients, ha, if_pos, if_neg, ite_true, ite_false] <;>
    first
      | exact nodup_foldl_set_insert _ _ (nodup_foldl_set_insert _ _ hbase)
      | exact nodup_foldl_set_insert _ _ hbase

/-- C6 (amended): the recipient set is
`(({owning officer} ∪ team) \ {actor}) ∪ (admins when the action is
'rejected', 'status_change' or 'overdue')`; the actor is excluded from the
owner/team part, so the actor receives a notification exactly when the
actor is an admin user and the action is admin-notified; exactly one
notification record is created per recipient. -/
theorem send_fir_notification_spec :
    ∀ (users : List User) (fir : FIRrec) (action : String) (actor : User)
      (table : List Notification),
      (∀ x, x ∈ fir_recipients users fir action actor ↔
        ((x = fir.police_officer ∨ x ∈ fir.assigned_team) ∧ x ≠ actor.pk)
        ∨ (action ∈ admin_actions ∧ x ∈ admin_pks users))
      ∧ (actor.pk ∈ fir_recipients users fir action actor ↔
          (action ∈ admin_actions ∧ actor.pk ∈ admin_pks users))
      ∧ ((send_fir_notification users fir action actor table).drop
            table.length).map Notification.user
          = fir_recipients users fir action actor
      ∧ (fir_recipients users fir action actor).Nodup := by
  intro users fir action actor table
  refine ⟨mem_fir_recipients users fir action actor, ?_, ?_,
    nodup_fir_recipients users fir action actor⟩
  · rw [mem_fir_recipients]
    simp
  · have hdrop : (send_fir_notification users fir action actor table).drop
        table.length = (fir_recipients users fir action actor).map
        (fir_notification fir action actor) := by
      simp [send_fir_notification]
    have hid : (Notification.user ∘ fir_notification fir action actor) = id :=
      rfl
    rw [hdrop, List.map_map, hid, List.map_id]

/-- C6 counterexample: an admin actor who performs a `status_change` is in
the recipient set and a notification record is created for them — the
actor does receive a notification. -/
theorem send_fir_notification_admin_actor_counterexample :
    ((1 : Nat) ∈ fir_recipients [⟨1, "alice", "admin", none⟩]
        ⟨10, "FIR-20250101-AB12CD", "submitted", 2, [], 5⟩
        "status_change" ⟨1, "alice", "admin", none⟩)
    ∧ (send_fir_notification [⟨1, "alice", "admin", none⟩]
          ⟨10, "FIR-20250101-AB12CD", "submitted", 2, [], 5⟩
          "status_change" ⟨1, "alice", "admin", none⟩ []).map
        Notification.user = [2, 1] := by
  constructor
  · decide
  · rfl

theorem send_fir_notification_length (users : List User) (fir : FIRrec)
    (action : String) (actor : User) (table : List Notification) :
    (send_fir_notification users fir action actor table).length
      = table.length + (fir_recipients users fir action actor).length := by
  simp [send_fir_notification]

/-- C7: the Notifier is not idempotent — with a non-empty recipient set,
two identical invocations create twice as many notification records as
one (no deduplication). -/
theorem send_fir_notification_not_idempotent :
    ∀ (users : List User) (fir : FIRrec) (action : String) (actor : User)
      (table : List Notification),
      fir_recipients users fir action actor ≠ [] →
      (send_fir_notification users fir action actor
          (send_fir_notification users fir action actor table)).length
          - table.length
        = 2 * ((send_fir_notification users fir action actor table).length
          - table.length) := by
  intro users fir action actor table h
  simp only [send_fir_notification_length]
  omega

/-- Witness for C7 at a concrete FIR, action and actor. -/
theorem send_fir_notification_not_idempotent_witness :
    fir_recipients [] ⟨10, "FIR-1", "draft", 2, [3], 5⟩ "reassigned"
        ⟨9, "bob", "police_officer", none⟩ ≠ []
    ∧ (send_fir_notification [] ⟨10, "FIR-1", "draft", 2, [3], 5⟩
          "reassigned" ⟨9, "bob", "police_officer", none⟩
          (send_fir_notification [] ⟨10, "FIR-1", "draft", 2, [3], 5⟩
            "reassigned" ⟨9, "bob", "police_officer", none⟩ [])).length - 0
        = 2 * ((send_fir_notification [] ⟨10, "FIR-1", "draft", 2, [3], 5⟩
            "reassigned" ⟨9, "bob", "police_officer", none⟩ []).length - 0) :=
  ⟨by decide,
   by
    have h := send_fir_notification_not_idempotent []
      ⟨10, "FIR-1", "draft", 2, [3], 5⟩ "reassigned"
      ⟨9, "bob", "police_officer", none⟩ [] (by decide)
    simpa using h⟩

/-! ## Status update (`views.py`, `officer_fir_detail_view`, POST branch)

The POST branch of `officer_fir_detail_view` reads `request.POST['status']`,
applies it when `new_status in dict(FIR.STATUS_CHOICES).keys()` and
`validate_status_change(fir.status, new_status)` both hold (saving the FIR
and calling `send_fir_notification(fir, 'status_change', request.user)`),
and in every case ends with `return redirect('officer_fir_detail', pk=pk)`.
The independent legal-suggestion-override block of the same view touches
neither the FIR status nor the notification table and is not embedded. -/

/-- An HTTP response, covering the response forms of the embedded views. -/
inductive HttpResp where
  | redirect (viewName : String) (pk : Nat)
  | jsonError (msg : String) (code : Nat)
  | pdfDocument (filename : String)
  | render (template : String)
deriving DecidableEq, Repr

/-- The guard of the status-update `if` in `officer_fir_detail_view`:
`new_status in dict(FIR.STATUS_CHOICES).keys() and
validate_status_change(fir.status, new_status)` (a missing POST key is
`None`, which is in no dict). -/
def status_update_accepted (fir : FIRrec) (new_status : Option String) :
    Bool :=
  match new_status with
  | some s => STATUS_KEYS.contains s && validate_status_change fir.status s
  | none => false

/-- Outcome of the POST branch: the FIR row after the request, the
notification table after the request, and the HTTP response. -/
structure StatusPostResult where
  fir : FIRrec
  notifications : List Notification
  resp : HttpResp
deriving DecidableEq, Repr

/-- The status-update POST branch of `officer_fir_detail_view`. -/
def officer_fir_detail_post (users : List User) (fir : FIRrec)
    (actor : User) (new_status : Option String)
    (table : List Notification) : StatusPostResult :=
  match new_status with
  | some s =>
    if STATUS_KEYS.contains s && validate_status_change fir.status s then
      let fir' := { fir with status := s }
      ⟨fir', send_fir_notification users fir' "status_change" actor table,
        .redirect "officer_fir_detail" fir.pk⟩
    else ⟨fir, table, .redirect "officer_fir_detail" fir.pk⟩
  | none => ⟨fir, table, .redirect "officer_fir_detail" fir.pk⟩

/-- C2 counterexample: for the FIR in status `draft` and the rejected
request `closed`, the view leaves the FIR unchanged and sends nothing, but
its response is identical to the response of the accepted request
`submitted` — a bare redirect to the detail page.  The rejection is never
reported to the caller. -/
theorem officer_fir_detail_post_silent_counterexample :
    (officer_fir_detail_post [] ⟨10, "FIR-1", "draft", 2, [], 5⟩
        ⟨2, "bob", "police_officer", some 5⟩ (some "closed") []).fir
      = ⟨10, "FIR-1", "draft", 2, [], 5⟩
    ∧ (officer_fir_detail_post [] ⟨10, "FIR-1", "draft", 2, [], 5⟩
        ⟨2, "bob", "police_officer", some 5⟩ (some "closed") []).notifications
      = []
    ∧ (officer_fir_detail_post [] ⟨10, "FIR-1", "draft", 2, [], 5⟩
        ⟨2, "bob", "police_officer", some 5⟩ (some "closed") []).resp
      = (officer_fir_detail_post [] ⟨10, "FIR-1", "draft", 2, [], 5⟩
        ⟨2, "bob", "police_officer", some 5⟩ (some "submitted") []).resp := by
  refine ⟨rfl, rfl, rfl⟩

/-- C2 (amended): a rejected transition leaves the FIR unchanged, raises
nothing, creates no notification, and responds with the same bare redirect
to the detail view that an accepted transition produces — the view does
not report the rejection to the caller. -/
theorem officer_fir_detail_post_rejected_noop :
    ∀ (users : List User) (fir : FIRrec) (actor : User)
      (new_status : Option String) (table : List Notification),
      status_update_accepted fir new_status = false →
      officer_fir_detail_post users fir actor new_status table
        = ⟨fir, table, .redirect "officer_fir_detail" fir.pk⟩ := by
  intro users fir actor new_status table h
  match new_status with
  | none => rfl
  | some s =>
    have hc : (STATUS_KEYS.contains s
        && validate_status_change fir.status s) = false := h
    simp only [officer_fir_detail_post]
    rw [hc]
    simp

/-- Witness for C2 at the concrete rejected request `draft → closed`. -/
theorem officer_fir_detail_post_rejected_noop_witness :
    status_update_accepted ⟨10, "FIR-1", "draft", 2, [], 5⟩ (some "closed")
        = false
    ∧ officer_fir_detail_post [] ⟨10, "FIR-1", "draft", 2, [], 5⟩
        ⟨2, "bob", "police_officer", some 5⟩ (some "closed") []
      = ⟨⟨10, "FIR-1", "draft", 2, [], 5⟩, [],
          .redirect "officer_fir_detail" 10⟩ :=
  ⟨by decide,
   officer_fir_detail_post_rejected_noop [] ⟨10, "FIR-1", "draft", 2, [], 5⟩
     ⟨2, "bob", "police_officer", some 5⟩ (some "closed") [] (by decide)⟩

/-! ## Legal suggestions (`views.py`, `generate_legal_suggestions_view`)

The view (after its role and access guards) deletes every
`LegalSuggestion` of the FIR and then creates one row per entry of its
hard-coded `mock_suggestions` list; the mock `description` field is not
passed to `LegalSuggestion.objects.create`. -/

/-- The `mock_suggestions` literal of `generate_legal_suggestions_view`:
(ipc_section, description, confidence_score). -/
def mock_suggestions : List (String × String × ℚ) :=
  [("IPC 379", "Punishment for theft", 0.85),
   ("IPC 34",
    "Acts done by several persons in furtherance of common intention",
    0.72)]

/-- The suggestion rows one invocation of the view creates for an FIR. -/
def created_suggestions (firPk : Nat) : List Suggestion :=
  mock_suggestions.map
    (fun m => ⟨firPk, m.1, none, "Indian Penal Code", none, m.2.2⟩)

/-- `generate_legal_suggestions_view` acting on the store:
`LegalSuggestion.objects.filter(fir=fir).delete()` followed by one
`LegalSuggestion.objects.create` per mock suggestion. -/
def generate_legal_suggestions (db : DB) (firPk : Nat) : DB :=
  { db with suggestions :=
      db.suggestions.filter (fun s => s.fir != firPk)
        ++ created_suggestions firPk }

/-- The suggestion rows of one FIR:
`LegalSuggestion.objects.filter(fir=fir)`. -/
def suggestions_for (db : DB) (firPk : Nat) : List Suggestion :=
  db.suggestions.filter (fun s => s.fir == firPk)

/-- A sequence of invocations of the view, on the FIRs listed in order. -/
def generate_legal_suggestions_seq (db : DB) (ops : List Nat) : DB :=
  ops.foldl generate_legal_suggestions db

theorem filter_ne_then_eq (l : List Suggestion) (p : Nat) :
    (l.filter (fun s => s.fir != p)).filter (fun s => s.fir == p) = [] := by
  induction l with
  | nil => rfl
  | cons a t ih =>
    by_cases h : a.fir = p <;> simp [List.filter_cons, h, ih]

theorem filter_eq_created_self (p : Nat) :
    (created_suggestions p).filter (fun s => s.fir == p)
      = created_suggestions p := by
  simp [created_suggestions, mock_suggestions]

theorem filter_eq_created_other (p q : Nat) (h : p ≠ q) :
    (created_suggestions q).filter (fun s => s.fir == p) = [] := by
  simp [created_suggestions, mock_suggestions, List.filter_cons,
    Ne.symm h]

theorem filter_eq_of_ne (l : List Suggestion) (p q : Nat) (h : p ≠ q) :
    (l.filter (fun s => s.fir != q)).filter (fun s => s.fir == p)
      = l.filter (fun s => s.fir == p) := by
  induction l with
  | nil => rfl
  | cons a t ih =>
    by_cases hq : a.fir = q
    · have hp : a.fir ≠ p := by rw [hq]; exact Ne.symm h
      simp [List.filter_cons, hq, hp, ih, h, Ne.symm h]
    · by_cases hp : a.fir = p <;>
        simp [List.filter_cons, hq, hp, ih, h, Ne.symm h]

theorem suggestions_for_generate_self (db : DB) (p : Nat) :
    suggestions_for (generate_legal_suggestions db p) p
      = created_suggestions p := by
  simp only [suggestions_for, generate_legal_suggestions,
    List.filter_append, filter_ne_then_eq, filter_eq_created_self,
    List.nil_append]

theorem suggestions_for_generate_other (db : DB) (p q : Nat) (h : p ≠ q) :
    suggestions_for (generate_legal_suggestions db q) p
      = suggestions_for db p := by
  simp only [suggestions_for, generate_legal_suggestions,
    List.filter_append, filter_eq_of_ne _ _ _ h,
    filter_eq_created_other _ _ h, List.append_nil]

theorem suggestions_for_seq_not_mem (ops : List Nat) :
    ∀ (db : DB) (p : Nat), p ∉ ops →
      suggestions_for (generate_legal_suggestions_seq db ops) p
        = suggestions_for db p := by
  induction ops with
  | nil => intro db p _; rfl
  | cons q rest ih =>
    intro db p hp
    have hpq : p ≠ q := fun h => hp (h ▸ List.mem_cons_self q rest)
    have hpr : p ∉ rest := fun h => hp (List.mem_cons_of_mem q h)
    calc suggestions_for
          (generate_legal_suggestions_seq (generate_legal_suggestions db q)
            rest) p
        = suggestions_for (generate_legal_suggestions db q) p := ih _ p hpr
      _ = suggestions_for db p := suggestions_for_generate_other db p q hpq

theorem suggestions_for_seq_mem (ops : List Nat) :
    ∀ (db : DB) (p : Nat), p ∈ ops →
      suggestions_for (generate_legal_suggestions_seq db ops) p
        = created_suggestions p := by
  induction ops with
  | nil => intro db p hp; cases hp
  | cons q rest ih =>
    intro db p hp
    by_cases hpr : p ∈ rest
    · exact ih _ p hpr
    · have hpq : p = q := by
        rcases List.mem_cons.mp hp with h | h
        · exact h
        · exact absurd h hpr
      subst hpq
      calc suggestions_for
            (generate_legal_suggestions_seq (generate_legal_suggestions db p)
              rest) p
          = suggestions_for (generate_legal_suggestions db p) p :=
            suggestions_for_seq_not_mem rest _ p hpr
        _ = created_suggestions p := suggestions_for_generate_self db p

theorem generate_seq_frame (ops : List Nat) :
    ∀ db : DB,
      (generate_legal_suggestions_seq db ops).firs = db.firs
      ∧ (generate_legal_suggestions_seq db ops).notifications
          = db.notifications
      ∧ (generate_legal_suggestions_seq db ops).evidence = db.evidence
      ∧ (generate_legal_suggestions_seq db ops).witnesses = db.witnesses
      ∧ (generate_legal_suggestions_seq db ops).hearings = db.hearings := by
  induction ops with
  | nil => intro db; exact ⟨rfl, rfl, rfl, rfl, rfl⟩
  | cons q rest ih =>
    intro db
    simpa [generate_legal_suggestions_seq, generate_legal_suggestions]
      using ih (generate_legal_suggestions db q)

/-- C4 counterexample: a single invocation on a fresh FIR leaves two
suggestion rows, not one (the mock list has two entries). -/
theorem generate_legal_suggestions_two_rows_counterexample :
    (suggestions_for
        (generate_legal_suggestions ⟨[], [], [], [], [], []⟩ 7) 7).length = 2
    ∧ (suggestions_for
        (generate_legal_suggestions ⟨[], [], [], [], [], []⟩ 7) 7).length
      ≠ 1 := by
  exact ⟨rfl, by decide⟩

/-- C4 (amended): after every invocation of the generation view on an FIR
— including a repeated invocation — the FIR carries exactly the suggestion
rows produced by that invocation: the two rows built from the mock list,
and none from any earlier invocation. -/
theorem generate_legal_suggestions_latest_only :
    ∀ (db : DB) (firPk : Nat),
      suggestions_for (generate_legal_suggestions db firPk) firPk
        = created_suggestions firPk
      ∧ (created_suggestions firPk).length = 2 :=
  fun db firPk => ⟨suggestions_for_generate_self db firPk, rfl⟩

/-- C5: replace semantics over any sequence of invocations — after the
sequence, an FIR that was generated for carries exactly the rows of the
latest invocation (which are the same mock rows each time), and no table
other than the suggestion table is modified. -/
theorem generate_legal_suggestions_replace_semantics :
    ∀ (db : DB) (ops : List Nat) (p : Nat),
      (p ∈ ops →
        suggestions_for (generate_legal_suggestions_seq db ops) p
          = created_suggestions p)
      ∧ (generate_legal_suggestions_seq db ops).firs = db.firs
      ∧ (generate_legal_suggestions_seq db ops).notifications
          = db.notifications
      ∧ (generate_legal_suggestions_seq db ops).evidence = db.evidence
      ∧ (generate_legal_suggestions_seq db ops).witnesses = db.witnesses
      ∧ (generate_legal_suggestions_seq db ops).hearings = db.hearings :=
  fun db ops p =>
    ⟨fun hp => suggestions_for_seq_mem ops db p hp, generate_seq_frame ops db⟩

/-- Witness for C5 on the concrete sequence of invocations [3, 7, 3]. -/
theorem generate_legal_suggestions_replace_semantics_witness :
    (3 : Nat) ∈ [3, 7, 3]
    ∧ suggestions_for
        (generate_legal_suggestions_seq ⟨[], [], [], [], [], []⟩ [3, 7, 3]) 3
      = created_suggestions 3 :=
  ⟨by decide,
   (generate_legal_suggestions_replace_semantics ⟨[], [], [], [], [], []⟩
      [3, 7, 3] 3).1 (by decide)⟩

/-! ## Text prediction pipeline (`app.py`, `predict_from_text`)

The `/predict` route strips the input text, rejects blank input with a 400
error, then runs translation and classification, each under its own
`try/except` with a local fallback.  The two external capabilities
(`GoogleTranslator(...).translate` and `vectorizer`/`ipc_model`) are
modelled as function parameters returning `Except`: a `.error` value is the
exception the library call would raise. -/

/-- A `/predict` success payload (the JSON keys the route returns). -/
structure PredictResp where
  original_text : String
  translated_text : String
  ipc_section : String
  confidence_score : ℚ
  status : String
deriving DecidableEq, Repr

/-- The `except` fallback of the translation step:
`f"[Translation failed: {e}] Original: {text}"` (string concatenation of
the f-string pieces). -/
def translation_failure_fallback (e text : String) : String :=
  "[Translation failed: " ++ e ++ "] Original: " ++ text

/-- The translation step of `predict_from_text` with its `try/except`. -/
def translated_or_fallback (translate : String → Except String String)
    (text : String) : String :=
  match translate text with
  | .ok r => r
  | .error e => translation_failure_fallback e text

/-- The classification step with its `try/except`
(`ipc_section = "Prediction failed"` on an exception). -/
def run_classifier (classify : String → Except String String)
    (text : String) : String :=
  match classify text with
  | .ok s => s
  | .error _ => "Prediction failed"

/-- Python's `str.strip()`: drop leading and trailing whitespace
(defined structurally over the character list so that concrete inputs
evaluate). -/
def py_strip (s : String) : String :=
  ⟨((s.data.dropWhile Char.isWhitespace).reverse.dropWhile
      Char.isWhitespace).reverse⟩

/-- `predict_from_text` in `app.py`: blank (stripped) input is a 400
error; otherwise the stripped text is translated (with fallback),
classified when the translated text is non-empty (`"Unknown"` otherwise),
and a success payload is returned. -/
def predict_from_text (text : String)
    (translate classify : String → Except String String) :
    Except (String × Nat) PredictResp :=
  if py_strip text = "" then .error ("No valid text provided", 400)
  else
    let t := py_strip text
    let translated := translated_or_fallback translate t
    let ipc :=
      if translated = "" then "Unknown" else run_classifier classify translated
    .ok ⟨t, translated, ipc, 0.85, "success"⟩

theorem translation_failure_fallback_ne_empty (e text : String) :
    translation_failure_fallback e text ≠ "" := by
  intro hc
  have hlen := congrArg String.length hc
  have h21 : ("[Translation failed: " : String).length = 21 := rfl
  simp [translation_failure_fallback, String.length_append] at hlen
  omega

/-- C8: when the translation step raises, `predict_from_text` does not
propagate the exception: it substitutes the original (stripped) text
prefixed with the failure marker, still runs the classification step on
that fallback text, and returns a success payload. -/
theorem predict_from_text_translation_failure :
    ∀ (text e : String) (classify : String → Except String String),
      py_strip text ≠ "" →
      predict_from_text text (fun _ => .error e) classify
        = .ok ⟨py_strip text,
            translation_failure_fallback e (py_strip text),
            run_classifier classify
              (translation_failure_fallback e (py_strip text)),
            0.85, "success"⟩ := by
  intro text e classify h
  simp [predict_from_text, h, translated_or_fallback,
    translation_failure_fallback_ne_empty]

/-- Witness for C8: the translator raises on input "xyz"; the pipeline
still returns a success payload built from the fallback text. -/
theorem predict_from_text_translation_failure_witness :
    py_strip "xyz" ≠ ""
    ∧ predict_from_text "xyz" (fun _ => .error "boom")
        (fun t => .ok ("IPC 420 for " ++ t))
      = .ok ⟨"xyz",
          translation_failure_fallback "boom" "xyz",
          run_classifier (fun t => .ok ("IPC 420 for " ++ t))
            (translation_failure_fallback "boom" "xyz"),
          0.85, "success"⟩ :=
  ⟨by decide,
   predict_from_text_translation_failure "xyz" "boom"
     (fun t => .ok ("IPC 420 for " ++ t)) (by decide)⟩

/-! ## Evidence type auto-classification (`models.py`, `Evidence.save`)

`Evidence.save` sets `evidence_type` from the file extension only when the
field is falsy (unset / empty); its `if/elif` chain has no final `else`, so
an extension outside the four groups leaves the field as it was.  The
upload view `upload_evidence_view` always passes an explicit type
(`request.POST.get('evidence_type', 'other')`), so the auto-classification
only fires for saves without an explicit type. -/

/-- Photo extensions of `Evidence.save`. -/
def photo_exts : List String := ["jpg", "jpeg", "png", "gif"]

/-- Video extensions of `Evidence.save`. -/
def video_exts : List String := ["mp4", "mov", "avi"]

/-- Audio extensions of `Evidence.save`. -/
def audio_exts : List String := ["mp3", "wav", "m4a", "ogg"]

/-- Document extensions of `Evidence.save`. -/
def document_exts : List String := ["pdf", "doc", "docx"]

/-- `self.file.name.split('.')[-1].lower()`: the part after the last dot
(the whole name when there is no dot), lower-cased.  Defined structurally
over the character list — the accumulator resets at each `'.'`, which is
exactly `split('.')[-1]` — so that concrete file names evaluate. -/
def file_ext (filename : String) : String :=
  ⟨(filename.data.foldl
      (fun acc c => if c = '.' then [] else acc ++ [c]) []).map
    Char.toLower⟩

/-- The `evidence_type` stored by `Evidence.save`, given the value of the
field before saving (`""` for unset) and the file name. -/
def evidence_save_type (evidence_type : String) (filename : String) :
    String :=
  if evidence_type = "" then
    let ext := file_ext filename
    if ext ∈ photo_exts then "photo"
    else if ext ∈ video_exts then "video"
    else if ext ∈ audio_exts then "audio"
    else if ext ∈ document_exts then "document"
    else evidence_type
  else evidence_type

/-- C9 counterexample: an evidence record saved without an explicit type
and with the unlisted extension `xyz` keeps an empty type — it is not
classified as `'other'`. -/
theorem evidence_save_type_no_other_counterexample :
    evidence_save_type "" "notes.xyz" = "" ∧
    evidence_save_type "" "notes.xyz" ≠ "other" := by
  decide

/-- C9 (amended): without an explicit type, the stored type is
auto-classified from the extension into photo/video/audio/document for the
four listed groups, and left unset (empty) — not `'other'` — for every
extension outside them; an explicitly supplied type is never
overridden. -/
theorem evidence_save_type_spec :
    ∀ (t fn : String),
      (t ≠ "" → evidence_save_type t fn = t)
      ∧ (file_ext fn ∈ photo_exts → evidence_save_type "" fn = "photo")
      ∧ (file_ext fn ∈ video_exts → evidence_save_type "" fn = "video")
      ∧ (file_ext fn ∈ audio_exts → evidence_save_type "" fn = "audio")
      ∧ (file_ext fn ∈ document_exts →
          evidence_save_type "" fn = "document")
      ∧ (file_ext fn ∉ photo_exts → file_ext fn ∉ video_exts →
          file_ext fn ∉ audio_exts → file_ext fn ∉ document_exts →
          evidence_save_type "" fn = "") := by
  intro t fn
  refine ⟨?_, ?_, ?_, ?_, ?_, ?_⟩
  · intro h
    simp [evidence_save_type, h]
  · intro h
    simp [evidence_save_type, h]
  · intro h
    have hp : file_ext fn ∉ photo_exts := by
      simp only [video_exts, List.mem_cons, List.not_mem_nil, or_false] at h
      rcases h with h | h | h <;> rw [h] <;> decide
    simp [evidence_save_type, h, hp]
  · intro h
    have hp : file_ext fn ∉ photo_exts ∧ file_ext fn ∉ video_exts := by
      simp only [audio_exts, List.mem_cons, List.not_mem_nil, or_false] at h
      rcases h with h | h | h | h <;> rw [h] <;> exact ⟨by decide, by decide⟩
    simp [evidence_save_type, h, hp.1, hp.2]
  · intro h
    have hp : file_ext fn ∉ photo_exts ∧ file_ext fn ∉ video_exts
        ∧ file_ext fn ∉ audio_exts := by
      simp only [document_exts, List.mem_cons, List.not_mem_nil,
        or_false] at h
      rcases h with h | h | h <;> rw [h] <;>
        exact ⟨by decide, by decide, by decide⟩
    simp [evidence_save_type, h, hp.1, hp.2.1, hp.2.2]
  · intro h1 h2 h3 h4
    simp [evidence_save_type, h1, h2, h3, h4]

/-- Witness for C9: one concrete filename per branch. -/
theorem evidence_save_type_spec_witness :
    (evidence_save_type "document" "scan.jpg" = "document")
    ∧ (evidence_save_type "" "IMG.JPG" = "photo")
    ∧ (evidence_save_type "" "clip.mp4" = "video")
    ∧ (evidence_save_type "" "rec.ogg" = "audio")
    ∧ (evidence_save_type "" "fir.pdf" = "document")
    ∧ (evidence_save_type "" "archive.tar" = "") :=
  ⟨(evidence_save_type_spec "document" "scan.jpg").1 (by decide),
   (evidence_save_type_spec "" "IMG.JPG").2.1 (by decide),
   (evidence_save_type_spec "" "clip.mp4").2.2.1 (by decide),
   (evidence_save_type_spec "" "rec.ogg").2.2.2.1 (by decide),
   (evidence_save_type_spec "" "fir.pdf").2.2.2.2.1 (by decide),
   (evidence_save_type_spec "" "archive.tar").2.2.2.2.2 (by decide)
     (by decide) (by decide) (by decide)⟩

/-! ## Charge sheet (`views.py`, `generate_charge_sheet`)

After the access guard the view checks
`fir.status != 'under_investigation'` and returns a 400 JSON error; on
`under_investigation` it returns the rendered PDF when
`request.GET['format'] == 'pdf'` and `generate_pdf_report` succeeded, and
the HTML page otherwise.  The view performs no writes, so it carries the
store through unchanged. -/

/-- `generate_charge_sheet(request, fir_pk)` (post access-check):
`formatParam` is `request.GET.get('format')` and `pdfOk` whether
`generate_pdf_report` returned a document rather than `None`. -/
def generate_charge_sheet (db : DB) (fir : FIRrec)
    (formatParam : Option String) (pdfOk : Bool) : HttpResp × DB :=
  if fir.status ≠ "under_investigation" then
    (.jsonError
      "Charge sheet can only be generated for cases under investigation" 400,
     db)
  else if formatParam == some "pdf" && pdfOk then
    (.pdfDocument ("charge_sheet_" ++ fir.fir_number ++ ".pdf"), db)
  else
    (.render "officer/firs/charge_sheet.html", db)

/-- C10: for every FIR not in `under_investigation` the charge-sheet view
returns the 400 error response and leaves the store unchanged; a PDF
document response can only arise for an FIR in `under_investigation`; the
view never modifies the store. -/
theorem generate_charge_sheet_gate :
    ∀ (db : DB) (fir : FIRrec) (formatParam : Option String) (pdfOk : Bool),
      (fir.status ≠ "under_investigation" →
        generate_charge_sheet db fir formatParam pdfOk
          = (.jsonError
              "Charge sheet can only be generated for cases under investigation"
              400, db))
      ∧ (∀ fn, (generate_charge_sheet db fir formatParam pdfOk).1
            = .pdfDocument fn → fir.status = "under_investigation")
      ∧ (generate_charge_sheet db fir formatParam pdfOk).2 = db := by
  intro db fir formatParam pdfOk
  refine ⟨?_, ?_, ?_⟩
  · intro h
    simp [generate_charge_sheet, h]
  · intro fn hresp
    by_contra h
    simp [generate_charge_sheet, h] at hresp
  · by_cases h : fir.status = "under_investigation"
    · by_cases hf : (formatParam == some "pdf" && pdfOk) = true <;>
        simp [generate_charge_sheet, h, hf]
    · simp [generate_charge_sheet, h]

/-- Witness for C10 at a concrete FIR in status `submitted`. -/
theorem generate_charge_sheet_gate_witness :
    (("submitted" : String) ≠ "under_investigation")
    ∧ generate_charge_sheet ⟨[], [], [], [], [], []⟩
        ⟨10, "FIR-1", "submitted", 2, [], 5⟩ (some "pdf") true
      = (.jsonError
          "Charge sheet can only be generated for cases under investigation"
          400, ⟨[], [], [], [], [], []⟩)
    ∧ ((generate_charge_sheet ⟨[], [], [], [], [], []⟩
          ⟨11, "FIR-2", "under_investigation", 2, [], 5⟩ (some "pdf")
          true).1 = .pdfDocument "charge_sheet_FIR-2.pdf" →
        ("under_investigation" : String) = "under_investigation") :=
  ⟨by decide,
   (generate_charge_sheet_gate ⟨[], [], [], [], [], []⟩
      ⟨10, "FIR-1", "submitted", 2, [], 5⟩ (some "pdf") true).1 (by decide),
   fun h => (generate_charge_sheet_gate ⟨[], [], [], [], [], []⟩
      ⟨11, "FIR-2", "under_investigation", 2, [], 5⟩ (some "pdf") true).2.1
      "charge_sheet_FIR-2.pdf" h⟩
